import Mathlib

/-!
A shallow embedding of the FacePay Move modules
(`facepay::registry`, `facepay::facepay`, `facepay::enhanced_payment`).

Modelling conventions:
* Move `address` values are modelled as `Nat` (`@0x1` is `1`).
* Move `u64` values are modelled as `Nat`.  Move arithmetic aborts on
  overflow/underflow; the one underflow that can fire for in-range inputs
  (`coin::extract` when the fee exceeds the withdrawn amount) is modelled
  explicitly; the claims below quantify over successful executions, whose
  arithmetic results are identical in `Nat` and `u64`.
* `aptos_std::smart_table::SmartTable<K, V>` is modelled as an association
  list `List (K × V)`; `add` aborts on a duplicate key, `remove` drops the
  key's entry, `contains`/`borrow` search by key.
* Move global storage (`exists<T>(a)` / `move_to` / `borrow_global`) is
  modelled per resource type: singleton config resources as maps
  `Nat → Option _`, and the per-account `UserProfile` / `PaymentTx`
  resources as association lists keyed by account address, so that the
  "at most one resource per account" discipline of `move_to` is an
  explicit, provable property rather than a builtin.
* `move_to` aborts when the target account already holds the resource.
* Each entry function returns `Except MoveErr ChainState`; an abort rolls
  back the whole call, so an `error` result carries no state change.
* `timestamp::now_seconds()` is passed in as an explicit `now` argument.
* Event handles are modelled as lists of emitted events.
* `coin::balance`/`withdraw`/`deposit` act on a total balance map
  `Nat → Nat` (CoinStore registration is outside the modelled scope).
-/

-- ====== Generic storage helpers ======

/-- Point update of a resource map (used for `move_to` / `borrow_global_mut`
writeback on singleton resources). -/
def upd {α : Type} (f : Nat → Option α) (a : Nat) (v : Option α) : Nat → Option α :=
  fun x => if x = a then v else f x

/-- Point update of the balance map. -/
def set_bal (f : Nat → Nat) (a : Nat) (v : Nat) : Nat → Nat :=
  fun x => if x = a then v else f x

-- ====== smart_table model ======

/-- `smart_table::contains`. -/
def st_contains {K V : Type} [BEq K] (t : List (K × V)) (k : K) : Bool :=
  t.any fun p => p.1 == k

/-- `smart_table::borrow` (as an `Option`, `none` when the key is absent). -/
def st_borrow {K V : Type} [BEq K] (t : List (K × V)) (k : K) : Option V :=
  (t.find? fun p => p.1 == k).map Prod.snd

/-- `smart_table::add`; aborts (`none`) when the key is already present. -/
def st_add {K V : Type} [BEq K] (t : List (K × V)) (k : K) (v : V) :
    Option (List (K × V)) :=
  if st_contains t k then none else some ((k, v) :: t)

/-- `smart_table::remove` (call sites in the source guard with `contains`). -/
def st_remove {K V : Type} [BEq K] (t : List (K × V)) (k : K) : List (K × V) :=
  t.filter fun p => !(p.1 == k)

-- ====== Move abort model ======

/-- Abort reasons.  The `std::error` category constructors keep the module's
raw error-code constant; `resource_exists` / `missing_data` /
`table_key_exists` are the implicit aborts of `move_to`,
`borrow_global(_mut)` on an absent resource, and `smart_table::add` on a
duplicate key. -/
inductive MoveErr : Type where
  | already_exists (code : Nat)
  | not_found (code : Nat)
  | invalid_argument (code : Nat)
  | permission_denied (code : Nat)
  | insufficient_funds (code : Nat)
  | resource_exists
  | missing_data
  | table_key_exists
deriving DecidableEq, Repr

-- ====== Error code constants ======

-- facepay::registry
def R_E_NOT_AUTHORIZED : Nat := 1
def R_E_USER_ALREADY_EXISTS : Nat := 2
def R_E_USER_NOT_FOUND : Nat := 3
def R_E_INVALID_FACE_HASH : Nat := 4
def R_E_REGISTRY_NOT_INITIALIZED : Nat := 6

-- facepay::facepay
def F_E_NOT_AUTHORIZED : Nat := 1
def F_E_RECIPIENT_NOT_FOUND : Nat := 3
def F_E_INVALID_AMOUNT : Nat := 4
def F_E_SAME_SENDER_RECIPIENT : Nat := 5
def F_E_SYSTEM_NOT_INITIALIZED : Nat := 9
def F_E_INSUFFICIENT_BALANCE : Nat := 10

-- facepay::enhanced_payment
def EP_E_USER_NOT_FOUND : Nat := 1
def EP_E_SAME_SENDER_RECIPIENT : Nat := 3
def EP_E_SYSTEM_NOT_INITIALIZED : Nat := 5
def EP_E_INSUFFICIENT_BALANCE : Nat := 6

-- facepay::facepay constants
def MIN_PAYMENT_AMOUNT : Nat := 1000000
def DEFAULT_FEE_BPS : Nat := 30

-- ====== facepay::registry data model ======

/-- `registry::UserProfile` (a `key` resource stored at the user's account). -/
structure UserProfile : Type where
  aptos_address : Nat
  face_hash : String
  storage_blob_id : String
  preferred_token : Nat
  display_name : String
  created_at : Nat
  updated_at : Nat
  is_verified : Bool
  payment_count : Nat
deriving DecidableEq, Repr

structure UserRegisteredEvent : Type where
  user_address : Nat
  face_hash : String
  storage_blob_id : String
  timestamp : Nat
deriving DecidableEq, Repr

structure UserPreferencesUpdatedEvent : Type where
  user_address : Nat
  preferred_token : Nat
  display_name : String
  timestamp : Nat
deriving DecidableEq, Repr

structure UserVerificationUpdatedEvent : Type where
  user_address : Nat
  is_verified : Bool
  timestamp : Nat
deriving DecidableEq, Repr

/-- `registry::RegistryConfig` (a `key` resource at the registry admin). -/
structure RegistryConfig : Type where
  face_to_user : List (String × Nat)
  address_to_user : List (Nat × Bool)
  user_count : Nat
  user_registered_events : List UserRegisteredEvent
  user_preferences_updated_events : List UserPreferencesUpdatedEvent
  user_verification_updated_events : List UserVerificationUpdatedEvent
deriving DecidableEq, Repr

-- ====== facepay::facepay data model ======

structure PaymentInitiatedEvent : Type where
  payment_id : Nat
  sender : Nat
  recipient_face_hash : String
  recipient_address : Nat
  original_token : Nat
  original_amount : Nat
  timestamp : Nat
deriving DecidableEq, Repr

structure PaymentCompletedEvent : Type where
  payment_id : Nat
  sender : Nat
  recipient_address : Nat
  received_token : Nat
  received_amount : Nat
  fee_amount : Nat
  swap_required : Bool
  timestamp : Nat
deriving DecidableEq, Repr

structure PaymentFailedEvent : Type where
  payment_id : Nat
  sender : Nat
  recipient_face_hash : String
  reason : String
  timestamp : Nat
deriving DecidableEq, Repr

/-- `facepay::FacePaySystem` (a `key` resource at the system admin). -/
structure FacePaySystem : Type where
  supported_tokens : List (Nat × Bool)
  min_amounts : List (Nat × Nat)
  fee_bps : Nat
  total_payments : Nat
  total_volume : Nat
  registry_admin : Nat
  payment_initiated_events : List PaymentInitiatedEvent
  payment_completed_events : List PaymentCompletedEvent
  payment_failed_events : List PaymentFailedEvent
deriving DecidableEq, Repr

/-- `facepay::PaymentTx` (a `key` resource stored at the sender's account). -/
structure PaymentTx : Type where
  sender : Nat
  recipient_face_hash : String
  recipient_address : Nat
  original_token : Nat
  original_amount : Nat
  received_token : Nat
  received_amount : Nat
  fee_amount : Nat
  swap_required : Bool
  swap_details : String
  timestamp : Nat
  status : Nat
  payment_id : Nat
deriving DecidableEq, Repr

-- ====== facepay::enhanced_payment data model ======

structure FacePaymentCompletedEvent : Type where
  payment_id : Nat
  sender : Nat
  recipient_face_hash : String
  recipient_address : Nat
  preferred_token : Nat
  amount_paid : Nat
  fee_amount : Nat
  timestamp : Nat
deriving DecidableEq, Repr

structure FaceVerificationSuccessEvent : Type where
  face_hash : String
  recipient_address : Nat
  timestamp : Nat
deriving DecidableEq, Repr

/-- `enhanced_payment::EnhancedPaymentConfig`. -/
structure EnhancedPaymentConfig : Type where
  system_admin : Nat
  registry_admin : Nat
  face_payment_completed_events : List FacePaymentCompletedEvent
  face_verification_success_events : List FaceVerificationSuccessEvent
deriving DecidableEq, Repr

-- ====== Global storage ======

/-- The Move global storage touched by the three modules.  The two
`AdminCap` resource kinds store their single `admin : address` field.
`user_profiles` / `payment_txs` are association lists keyed by the owning
account (one `move_to` target slot per address). -/
structure ChainState : Type where
  registry_config : Nat → Option RegistryConfig
  registry_admin_cap : Nat → Option Nat
  user_profiles : List (Nat × UserProfile)
  facepay_system : Nat → Option FacePaySystem
  facepay_admin_cap : Nat → Option Nat
  payment_counter : Nat → Option Nat
  payment_txs : List (Nat × PaymentTx)
  enhanced_config : Nat → Option EnhancedPaymentConfig
  balance : Nat → Nat

/-- Lookup of the `UserProfile` resource at an address. -/
def prof_find (l : List (Nat × UserProfile)) (a : Nat) : Option UserProfile :=
  (l.find? fun p => p.1 == a).map Prod.snd

/-- In-place update of the `UserProfile` resource at an address
(`borrow_global_mut` writeback; keys are untouched). -/
def prof_set (l : List (Nat × UserProfile)) (a : Nat) (v : UserProfile) :
    List (Nat × UserProfile) :=
  l.map fun p => if p.1 = a then (a, v) else p

/-- Lookup of the `PaymentTx` resource at an address. -/
def ptx_find (l : List (Nat × PaymentTx)) (a : Nat) : Option PaymentTx :=
  (l.find? fun p => p.1 == a).map Prod.snd

-- ====== facepay::registry functions ======

/-- `registry::initialize` (names shortened: `initialize` → `registry_init`). -/
def registry_init (admin : Nat) (s : ChainState) : Except MoveErr ChainState :=
  if (s.registry_config admin).isSome then
    .error (.already_exists R_E_USER_ALREADY_EXISTS)
  else if (s.registry_admin_cap admin).isSome then
    -- move_to(admin, admin_cap) aborts on an occupied slot
    .error .resource_exists
  else
    .ok { s with
      registry_admin_cap := upd s.registry_admin_cap admin (some admin),
      registry_config := upd s.registry_config admin (some
        { face_to_user := [], address_to_user := [], user_count := 0,
          user_registered_events := [], user_preferences_updated_events := [],
          user_verification_updated_events := [] }) }

/-- `registry::register_user`. -/
def register_user (user : Nat) (face_hash storage_blob_id : String)
    (preferred_token : Nat) (display_name : String) (registry_admin : Nat)
    (now : Nat) (s : ChainState) : Except MoveErr ChainState :=
  if face_hash.isEmpty then .error (.invalid_argument R_E_INVALID_FACE_HASH)
  else match s.registry_config registry_admin with
  | none => .error (.not_found R_E_REGISTRY_NOT_INITIALIZED)
  | some cfg =>
    if st_contains cfg.face_to_user face_hash then
      .error (.already_exists R_E_USER_ALREADY_EXISTS)
    else if st_contains cfg.address_to_user user then
      .error (.already_exists R_E_USER_ALREADY_EXISTS)
    else
      let user_profile : UserProfile :=
        { aptos_address := user, face_hash := face_hash,
          storage_blob_id := storage_blob_id, preferred_token := preferred_token,
          display_name := display_name, created_at := now, updated_at := now,
          is_verified := false, payment_count := 0 }
      -- smart_table::add twice (cannot abort: contains was checked above)
      let cfg' : RegistryConfig :=
        { cfg with
          face_to_user := (face_hash, user) :: cfg.face_to_user,
          address_to_user := (user, true) :: cfg.address_to_user,
          user_count := cfg.user_count + 1,
          user_registered_events := cfg.user_registered_events ++
            [{ user_address := user, face_hash := face_hash,
               storage_blob_id := storage_blob_id, timestamp := now }] }
      -- move_to(user, user_profile) aborts when a profile already exists
      if (prof_find s.user_profiles user).isSome then .error .resource_exists
      else
        .ok { s with
          registry_config := upd s.registry_config registry_admin (some cfg'),
          user_profiles := (user, user_profile) :: s.user_profiles }

/-- `registry::update_preferences`. -/
def update_preferences (user : Nat) (preferred_token : Nat)
    (display_name : String) (registry_admin : Nat) (now : Nat)
    (s : ChainState) : Except MoveErr ChainState :=
  match prof_find s.user_profiles user with
  | none => .error (.not_found R_E_USER_NOT_FOUND)
  | some user_profile =>
    let user_profile' : UserProfile :=
      { user_profile with
        preferred_token := preferred_token,
        display_name := display_name, updated_at := now }
    -- borrow_global_mut<RegistryConfig>(registry_admin) for event emission
    match s.registry_config registry_admin with
    | none => .error .missing_data
    | some cfg =>
      let cfg' : RegistryConfig :=
        { cfg with
          user_preferences_updated_events :=
            cfg.user_preferences_updated_events ++
              [{ user_address := user, preferred_token := preferred_token,
                 display_name := display_name, timestamp := now }] }
      .ok { s with
        user_profiles := prof_set s.user_profiles user user_profile',
        registry_config := upd s.registry_config registry_admin (some cfg') }

/-- `registry::get_user_by_face_hash` (pure read). -/
def get_user_by_face_hash (registry_admin : Nat) (face_hash : String)
    (s : ChainState) : Option Nat :=
  match s.registry_config registry_admin with
  | none => none
  | some cfg => st_borrow cfg.face_to_user face_hash

/-- `registry::user_exists_by_face` (pure read). -/
def user_exists_by_face (registry_admin : Nat) (face_hash : String)
    (s : ChainState) : Bool :=
  match s.registry_config registry_admin with
  | none => false
  | some cfg => st_contains cfg.face_to_user face_hash

/-- `registry::user_profile_exists` (pure read). -/
def user_profile_exists (user_address : Nat) (s : ChainState) : Bool :=
  (prof_find s.user_profiles user_address).isSome

/-- `registry::increment_payment_count` — defined by the source but never
invoked by any payment path in the repository. -/
def increment_payment_count (user_profile : UserProfile) : UserProfile :=
  { user_profile with payment_count := user_profile.payment_count + 1 }

/-- `registry::verify_user`. -/
def verify_user (admin : Nat) (user_address : Nat) (registry_admin : Nat)
    (now : Nat) (s : ChainState) : Except MoveErr ChainState :=
  match s.registry_admin_cap admin with
  | none => .error (.permission_denied R_E_NOT_AUTHORIZED)
  | some cap_admin =>
    if cap_admin ≠ admin then .error (.permission_denied R_E_NOT_AUTHORIZED)
    else match prof_find s.user_profiles user_address with
    | none => .error (.not_found R_E_USER_NOT_FOUND)
    | some user_profile =>
      let user_profile' : UserProfile :=
        { user_profile with
          is_verified := true, updated_at := now }
      match s.registry_config registry_admin with
      | none => .error .missing_data
      | some cfg =>
        let cfg' : RegistryConfig :=
          { cfg with
            user_verification_updated_events :=
              cfg.user_verification_updated_events ++
                [{ user_address := user_address, is_verified := true,
                   timestamp := now }] }
        .ok { s with
          user_profiles := prof_set s.user_profiles user_address user_profile',
          registry_config := upd s.registry_config registry_admin (some cfg') }

/-- `registry::unverify_user`. -/
def unverify_user (admin : Nat) (user_address : Nat) (registry_admin : Nat)
    (now : Nat) (s : ChainState) : Except MoveErr ChainState :=
  match s.registry_admin_cap admin with
  | none => .error (.permission_denied R_E_NOT_AUTHORIZED)
  | some cap_admin =>
    if cap_admin ≠ admin then .error (.permission_denied R_E_NOT_AUTHORIZED)
    else match prof_find s.user_profiles user_address with
    | none => .error (.not_found R_E_USER_NOT_FOUND)
    | some user_profile =>
      let user_profile' : UserProfile :=
        { user_profile with
          is_verified := false, updated_at := now }
      match s.registry_config registry_admin with
      | none => .error .missing_data
      | some cfg =>
        let cfg' : RegistryConfig :=
          { cfg with
            user_verification_updated_events :=
              cfg.user_verification_updated_events ++
                [{ user_address := user_address, is_verified := false,
                   timestamp := now }] }
        .ok { s with
          user_profiles := prof_set s.user_profiles user_address user_profile',
          registry_config := upd s.registry_config registry_admin (some cfg') }

-- ====== facepay::facepay functions ======

/-- `facepay::initialize` (names shortened: `initialize` → `facepay_init`).
Seeds APT (`@0x1`) as supported with the default minimum and creates the
payment counter and the admin capability. -/
def facepay_init (admin : Nat) (registry_admin : Nat) (s : ChainState) :
    Except MoveErr ChainState :=
  if (s.facepay_system admin).isSome then
    .error (.already_exists F_E_SYSTEM_NOT_INITIALIZED)
  else if (s.facepay_admin_cap admin).isSome then .error .resource_exists
  else if (s.payment_counter admin).isSome then .error .resource_exists
  else
    .ok { s with
      facepay_admin_cap := upd s.facepay_admin_cap admin (some admin),
      facepay_system := upd s.facepay_system admin (some
        { supported_tokens := [(1, true)],
          min_amounts := [(1, MIN_PAYMENT_AMOUNT)],
          fee_bps := DEFAULT_FEE_BPS,
          total_payments := 0, total_volume := 0,
          registry_admin := registry_admin,
          payment_initiated_events := [], payment_completed_events := [],
          payment_failed_events := [] }),
      payment_counter := upd s.payment_counter admin (some 0) }

/-- `facepay::pay_by_face_apt`. -/
def pay_by_face_apt (sender : Nat) (recipient_face_hash : String)
    (amount : Nat) (system_admin : Nat) (now : Nat) (s : ChainState) :
    Except MoveErr ChainState :=
  if amount < MIN_PAYMENT_AMOUNT then
    .error (.invalid_argument F_E_INVALID_AMOUNT)
  else match s.facepay_system system_admin with
  | none => .error (.not_found F_E_SYSTEM_NOT_INITIALIZED)
  | some sys =>
    match get_user_by_face_hash sys.registry_admin recipient_face_hash s with
    | none => .error (.not_found F_E_RECIPIENT_NOT_FOUND)
    | some recipient_address =>
      if sender = recipient_address then
        .error (.invalid_argument F_E_SAME_SENDER_RECIPIENT)
      else if s.balance sender < amount then
        .error (.insufficient_funds F_E_INSUFFICIENT_BALANCE)
      else
        let fee_amount := amount * sys.fee_bps / 10000
        let net_amount := amount - fee_amount
        match s.payment_counter system_admin with
        | none => .error .missing_data
        | some counter =>
          let payment_id := counter + 1
          let payment_tx : PaymentTx :=
            { sender := sender, recipient_face_hash := recipient_face_hash,
              recipient_address := recipient_address, original_token := 1,
              original_amount := amount, received_token := 1,
              received_amount := net_amount, fee_amount := fee_amount,
              swap_required := false,
              swap_details := "No swap required - APT to APT",
              timestamp := now, status := 1, payment_id := payment_id }
          -- coin::extract aborts (coin::EINSUFFICIENT_BALANCE = 6) when the
          -- withdrawn coin holds less than fee_amount
          if amount < fee_amount then
            .error (.invalid_argument 6)
          -- move_to(sender, payment_tx) aborts on an occupied slot
          else if (ptx_find s.payment_txs sender).isSome then
            .error .resource_exists
          else
            let bal1 := set_bal s.balance sender (s.balance sender - amount)
            let bal2 := set_bal bal1 system_admin (bal1 system_admin + fee_amount)
            let bal3 := set_bal bal2 recipient_address
              (bal2 recipient_address + net_amount)
            .ok { s with
              balance := bal3,
              payment_counter := upd s.payment_counter system_admin
                (some payment_id),
              facepay_system := upd s.facepay_system system_admin (some
                { sys with
                  total_payments := sys.total_payments + 1,
                  total_volume := sys.total_volume + amount,
                  payment_initiated_events := sys.payment_initiated_events ++
                    [{ payment_id := payment_id, sender := sender,
                       recipient_face_hash := recipient_face_hash,
                       recipient_address := recipient_address,
                       original_token := 1, original_amount := amount,
                       timestamp := now }],
                  payment_completed_events := sys.payment_completed_events ++
                    [{ payment_id := payment_id, sender := sender,
                       recipient_address := recipient_address,
                       received_token := 1, received_amount := net_amount,
                       fee_amount := fee_amount, swap_required := false,
                       timestamp := now }] }),
              payment_txs := (sender, payment_tx) :: s.payment_txs }

/-- `facepay::pay_by_face_apt_with_profile` (same flow, with an extra
`user_profile_exists` check and a different `swap_details` string). -/
def pay_by_face_apt_with_profile (sender : Nat) (recipient_face_hash : String)
    (amount : Nat) (system_admin : Nat) (now : Nat) (s : ChainState) :
    Except MoveErr ChainState :=
  if amount < MIN_PAYMENT_AMOUNT then
    .error (.invalid_argument F_E_INVALID_AMOUNT)
  else match s.facepay_system system_admin with
  | none => .error (.not_found F_E_SYSTEM_NOT_INITIALIZED)
  | some sys =>
    match get_user_by_face_hash sys.registry_admin recipient_face_hash s with
    | none => .error (.not_found F_E_RECIPIENT_NOT_FOUND)
    | some recipient_address =>
      if !(user_profile_exists recipient_address s) then
        .error (.not_found F_E_RECIPIENT_NOT_FOUND)
      else if sender = recipient_address then
        .error (.invalid_argument F_E_SAME_SENDER_RECIPIENT)
      else if s.balance sender < amount then
        .error (.insufficient_funds F_E_INSUFFICIENT_BALANCE)
      else
        let fee_amount := amount * sys.fee_bps / 10000
        let net_amount := amount - fee_amount
        match s.payment_counter system_admin with
        | none => .error .missing_data
        | some counter =>
          let payment_id := counter + 1
          let payment_tx : PaymentTx :=
            { sender := sender, recipient_face_hash := recipient_face_hash,
              recipient_address := recipient_address, original_token := 1,
              original_amount := amount, received_token := 1,
              received_amount := net_amount, fee_amount := fee_amount,
              swap_required := false,
              swap_details := "No swap required - APT to APT (verified)",
              timestamp := now, status := 1, payment_id := payment_id }
          -- coin::extract abort, as above
          if amount < fee_amount then
            .error (.invalid_argument 6)
          else if (ptx_find s.payment_txs sender).isSome then
            .error .resource_exists
          else
            let bal1 := set_bal s.balance sender (s.balance sender - amount)
            let bal2 := set_bal bal1 system_admin (bal1 system_admin + fee_amount)
            let bal3 := set_bal bal2 recipient_address
              (bal2 recipient_address + net_amount)
            .ok { s with
              balance := bal3,
              payment_counter := upd s.payment_counter system_admin
                (some payment_id),
              facepay_system := upd s.facepay_system system_admin (some
                { sys with
                  total_payments := sys.total_payments + 1,
                  total_volume := sys.total_volume + amount,
                  payment_initiated_events := sys.payment_initiated_events ++
                    [{ payment_id := payment_id, sender := sender,
                       recipient_face_hash := recipient_face_hash,
                       recipient_address := recipient_address,
                       original_token := 1, original_amount := amount,
                       timestamp := now }],
                  payment_completed_events := sys.payment_completed_events ++
                    [{ payment_id := payment_id, sender := sender,
                       recipient_address := recipient_address,
                       received_token := 1, received_amount := net_amount,
                       fee_amount := fee_amount, swap_required := false,
                       timestamp := now }] }),
              payment_txs := (sender, payment_tx) :: s.payment_txs }

/-- `facepay::get_min_payment_amount` (pure read with defaults). -/
def get_min_payment_amount (system_admin : Nat) (token_address : Nat)
    (s : ChainState) : Nat :=
  match s.facepay_system system_admin with
  | none => MIN_PAYMENT_AMOUNT
  | some sys =>
    match st_borrow sys.min_amounts token_address with
    | some m => m
    | none => MIN_PAYMENT_AMOUNT

/-- `facepay::get_system_stats` (pure read). -/
def get_system_stats (system_admin : Nat) (s : ChainState) : Nat × Nat × Nat :=
  match s.facepay_system system_admin with
  | none => (0, 0, 0)
  | some sys => (sys.total_payments, sys.total_volume, sys.fee_bps)

/-- `facepay::get_payment_counter` (pure read, 0 when absent). -/
def get_payment_counter (system_admin : Nat) (s : ChainState) : Nat :=
  (s.payment_counter system_admin).getD 0

/-- `facepay::add_supported_token` (admin only; `smart_table::add` aborts on
an already-present token). -/
def add_supported_token (admin : Nat) (token_address : Nat) (min_amount : Nat)
    (system_admin : Nat) (s : ChainState) : Except MoveErr ChainState :=
  match s.facepay_admin_cap admin with
  | none => .error (.permission_denied F_E_NOT_AUTHORIZED)
  | some cap_admin =>
    if cap_admin ≠ admin then .error (.permission_denied F_E_NOT_AUTHORIZED)
    else match s.facepay_system system_admin with
    | none => .error (.not_found F_E_SYSTEM_NOT_INITIALIZED)
    | some sys =>
      match st_add sys.supported_tokens token_address true with
      | none => .error .table_key_exists
      | some supported' =>
        match st_add sys.min_amounts token_address min_amount with
        | none => .error .table_key_exists
        | some mins' =>
          .ok { s with
            facepay_system := upd s.facepay_system system_admin (some
              { sys with supported_tokens := supported', min_amounts := mins' }) }

/-- `facepay::remove_supported_token` (admin only; removals are guarded by
`contains`, so they cannot abort). -/
def remove_supported_token (admin : Nat) (token_address : Nat)
    (system_admin : Nat) (s : ChainState) : Except MoveErr ChainState :=
  match s.facepay_admin_cap admin with
  | none => .error (.permission_denied F_E_NOT_AUTHORIZED)
  | some cap_admin =>
    if cap_admin ≠ admin then .error (.permission_denied F_E_NOT_AUTHORIZED)
    else match s.facepay_system system_admin with
    | none => .error (.not_found F_E_SYSTEM_NOT_INITIALIZED)
    | some sys =>
      .ok { s with
        facepay_system := upd s.facepay_system system_admin (some
          { sys with
            supported_tokens := st_remove sys.supported_tokens token_address,
            min_amounts := st_remove sys.min_amounts token_address }) }

/-- `facepay::update_fee_bps` (admin only; rejects rates above 1000 bps). -/
def update_fee_bps (admin : Nat) (new_fee_bps : Nat) (system_admin : Nat)
    (s : ChainState) : Except MoveErr ChainState :=
  match s.facepay_admin_cap admin with
  | none => .error (.permission_denied F_E_NOT_AUTHORIZED)
  | some cap_admin =>
    if cap_admin ≠ admin then .error (.permission_denied F_E_NOT_AUTHORIZED)
    else if new_fee_bps > 1000 then
      .error (.invalid_argument F_E_INVALID_AMOUNT)
    else match s.facepay_system system_admin with
    | none => .error (.not_found F_E_SYSTEM_NOT_INITIALIZED)
    | some sys =>
      .ok { s with
        facepay_system := upd s.facepay_system system_admin (some
          { sys with fee_bps := new_fee_bps }) }

-- ====== facepay::enhanced_payment functions ======

/-- `enhanced_payment::initialize` (shortened: `initialize` → `enhanced_init`). -/
def enhanced_init (admin : Nat) (system_admin : Nat) (registry_admin : Nat)
    (s : ChainState) : Except MoveErr ChainState :=
  if (s.enhanced_config admin).isSome then
    .error (.already_exists EP_E_SYSTEM_NOT_INITIALIZED)
  else
    .ok { s with
      enhanced_config := upd s.enhanced_config admin (some
        { system_admin := system_admin, registry_admin := registry_admin,
          face_payment_completed_events := [],
          face_verification_success_events := [] }) }

/-- `enhanced_payment::pay_by_face_enhanced`.  The config stays mutably
borrowed across the inner `pay_by_face_apt_with_profile` call (which never
touches `EnhancedPaymentConfig` storage), so the final write-back appends
the completion event to the same borrowed config. -/
def pay_by_face_enhanced (sender : Nat) (recipient_face_hash : String)
    (amount : Nat) (enhanced_admin : Nat) (now : Nat) (s : ChainState) :
    Except MoveErr ChainState :=
  match s.enhanced_config enhanced_admin with
  | none => .error (.not_found EP_E_SYSTEM_NOT_INITIALIZED)
  | some config =>
    match get_user_by_face_hash config.registry_admin recipient_face_hash s with
    | none => .error (.not_found EP_E_USER_NOT_FOUND)
    | some recipient_address =>
      if !(user_profile_exists recipient_address s) then
        .error (.not_found EP_E_USER_NOT_FOUND)
      else if sender = recipient_address then
        .error (.invalid_argument EP_E_SAME_SENDER_RECIPIENT)
      else if s.balance sender < amount then
        .error (.insufficient_funds EP_E_INSUFFICIENT_BALANCE)
      else
        let config1 : EnhancedPaymentConfig :=
          { config with
            face_verification_success_events :=
              config.face_verification_success_events ++
                [{ face_hash := recipient_face_hash,
                   recipient_address := recipient_address, timestamp := now }] }
        let s1 : ChainState :=
          { s with
            enhanced_config :=
              upd s.enhanced_config enhanced_admin (some config1) }
        match pay_by_face_apt_with_profile sender recipient_face_hash amount
            config.system_admin now s1 with
        | .error e => .error e
        | .ok s2 =>
          let fee_amount := amount * 30 / 10000
          let payment_id := get_payment_counter config.system_admin s2
          let config2 : EnhancedPaymentConfig :=
            { config1 with
              face_payment_completed_events :=
                config1.face_payment_completed_events ++
                  [{ payment_id := payment_id, sender := sender,
                     recipient_face_hash := recipient_face_hash,
                     recipient_address := recipient_address,
                     preferred_token := 1, amount_paid := amount,
                     fee_amount := fee_amount, timestamp := now }] }
          .ok { s2 with
            enhanced_config := upd s2.enhanced_config enhanced_admin
              (some config2) }

/-- `enhanced_payment::pay_by_face_enhanced_with_verification` (adds the
redundant `user_exists_by_face` double-check). -/
def pay_by_face_enhanced_with_verification (sender : Nat)
    (recipient_face_hash : String) (amount : Nat) (enhanced_admin : Nat)
    (now : Nat) (s : ChainState) : Except MoveErr ChainState :=
  match s.enhanced_config enhanced_admin with
  | none => .error (.not_found EP_E_SYSTEM_NOT_INITIALIZED)
  | some config =>
    match get_user_by_face_hash config.registry_admin recipient_face_hash s with
    | none => .error (.not_found EP_E_USER_NOT_FOUND)
    | some recipient_address =>
      if !(user_profile_exists recipient_address s) then
        .error (.not_found EP_E_USER_NOT_FOUND)
      else if !(user_exists_by_face config.registry_admin recipient_face_hash s) then
        .error (.invalid_argument 2)
      else if sender = recipient_address then
        .error (.invalid_argument EP_E_SAME_SENDER_RECIPIENT)
      else if s.balance sender < amount then
        .error (.insufficient_funds EP_E_INSUFFICIENT_BALANCE)
      else
        let config1 : EnhancedPaymentConfig :=
          { config with
            face_verification_success_events :=
              config.face_verification_success_events ++
                [{ face_hash := recipient_face_hash,
                   recipient_address := recipient_address, timestamp := now }] }
        let s1 : ChainState :=
          { s with
            enhanced_config :=
              upd s.enhanced_config enhanced_admin (some config1) }
        match pay_by_face_apt_with_profile sender recipient_face_hash amount
            config.system_admin now s1 with
        | .error e => .error e
        | .ok s2 =>
          let fee_amount := amount * 30 / 10000
          let payment_id := get_payment_counter config.system_admin s2
          let config2 : EnhancedPaymentConfig :=
            { config1 with
              face_payment_completed_events :=
                config1.face_payment_completed_events ++
                  [{ payment_id := payment_id, sender := sender,
                     recipient_face_hash := recipient_face_hash,
                     recipient_address := recipient_address,
                     preferred_token := 1, amount_paid := amount,
                     fee_amount := fee_amount, timestamp := now }] }
          .ok { s2 with
            enhanced_config := upd s2.enhanced_config enhanced_admin
              (some config2) }

/-- `enhanced_payment::pay_by_face_with_swap_enhanced` — the swap is a stub;
after the config-existence assert it degrades to `pay_by_face_enhanced`. -/
def pay_by_face_with_swap_enhanced (sender : Nat) (recipient_face_hash : String)
    (amount : Nat) (enhanced_admin : Nat) (now : Nat) (s : ChainState) :
    Except MoveErr ChainState :=
  match s.enhanced_config enhanced_admin with
  | none => .error (.not_found EP_E_SYSTEM_NOT_INITIALIZED)
  | some _ =>
    pay_by_face_enhanced sender recipient_face_hash amount enhanced_admin now s

-- ====== Reachability ======

/-- The genesis storage: no module resource published anywhere; account
balances are an arbitrary funding map. -/
def init_state (bal : Nat → Nat) : ChainState :=
  { registry_config := fun _ => none, registry_admin_cap := fun _ => none,
    user_profiles := [], facepay_system := fun _ => none,
    facepay_admin_cap := fun _ => none, payment_counter := fun _ => none,
    payment_txs := [], enhanced_config := fun _ => none, balance := bal }

/-- One successful public entry-point transaction of any of the three
modules (failed transactions abort and leave the state unchanged). -/
inductive Step : ChainState → ChainState → Prop where
  | registry_init (admin : Nat) (s s' : ChainState) :
      registry_init admin s = .ok s' → Step s s'
  | register_user (user : Nat) (fh blob : String) (tok : Nat) (dn : String)
      (ra now : Nat) (s s' : ChainState) :
      register_user user fh blob tok dn ra now s = .ok s' → Step s s'
  | update_preferences (user tok : Nat) (dn : String) (ra now : Nat)
      (s s' : ChainState) :
      update_preferences user tok dn ra now s = .ok s' → Step s s'
  | verify_user (admin ua ra now : Nat) (s s' : ChainState) :
      verify_user admin ua ra now s = .ok s' → Step s s'
  | unverify_user (admin ua ra now : Nat) (s s' : ChainState) :
      unverify_user admin ua ra now s = .ok s' → Step s s'
  | facepay_init (admin ra : Nat) (s s' : ChainState) :
      facepay_init admin ra s = .ok s' → Step s s'
  | pay_by_face_apt (sender : Nat) (fh : String) (amount sa now : Nat)
      (s s' : ChainState) :
      pay_by_face_apt sender fh amount sa now s = .ok s' → Step s s'
  | pay_by_face_apt_with_profile (sender : Nat) (fh : String)
      (amount sa now : Nat) (s s' : ChainState) :
      pay_by_face_apt_with_profile sender fh amount sa now s = .ok s' →
      Step s s'
  | add_supported_token (admin tok mina sa : Nat) (s s' : ChainState) :
      add_supported_token admin tok mina sa s = .ok s' → Step s s'
  | remove_supported_token (admin tok sa : Nat) (s s' : ChainState) :
      remove_supported_token admin tok sa s = .ok s' → Step s s'
  | update_fee_bps (admin rate sa : Nat) (s s' : ChainState) :
      update_fee_bps admin rate sa s = .ok s' → Step s s'
  | enhanced_init (admin sa ra : Nat) (s s' : ChainState) :
      enhanced_init admin sa ra s = .ok s' → Step s s'
  | pay_by_face_enhanced (sender : Nat) (fh : String) (amount ea now : Nat)
      (s s' : ChainState) :
      pay_by_face_enhanced sender fh amount ea now s = .ok s' → Step s s'
  | pay_by_face_enhanced_with_verification (sender : Nat) (fh : String)
      (amount ea now : Nat) (s s' : ChainState) :
      pay_by_face_enhanced_with_verification sender fh amount ea now s =
        .ok s' → Step s s'
  | pay_by_face_with_swap_enhanced (sender : Nat) (fh : String)
      (amount ea now : Nat) (s s' : ChainState) :
      pay_by_face_with_swap_enhanced sender fh amount ea now s = .ok s' →
      Step s s'

/-- A state is reachable when some sequence of successful transactions
produces it from a genesis storage (with any initial funding). -/
def Reachable (s : ChainState) : Prop :=
  ∃ bal, Relation.ReflTransGen Step (init_state bal) s

-- ====== Helper lemmas ======

theorem upd_self {α : Type} (f : Nat → Option α) (a : Nat) (v : Option α) :
    upd f a v a = v := by simp [upd]

theorem upd_ne {α : Type} (f : Nat → Option α) (a : Nat) (v : Option α)
    (b : Nat) (h : b ≠ a) : upd f a v b = f b := by simp [upd, h]

theorem set_bal_self (f : Nat → Nat) (a v : Nat) : set_bal f a v a = v := by
  simp [set_bal]

theorem set_bal_ne (f : Nat → Nat) (a v b : Nat) (h : b ≠ a) :
    set_bal f a v b = f b := by simp [set_bal, h]

theorem st_contains_iff {K V : Type} [BEq K] [LawfulBEq K]
    (t : List (K × V)) (k : K) :
    st_contains t k = true ↔ k ∈ t.map Prod.fst := by
  simp [st_contains, List.any_eq_true, List.mem_map]

theorem prof_set_keys (l : List (Nat × UserProfile)) (a : Nat)
    (v : UserProfile) : (prof_set l a v).map Prod.fst = l.map Prod.fst := by
  induction l with
  | nil => rfl
  | cons p t ih =>
    simp only [prof_set, List.map_cons] at *
    by_cases hp : p.1 = a
    · simp [hp, ih]
    · simp [hp, ih]

theorem prof_set_mem {l : List (Nat × UserProfile)} {a : Nat}
    {v : UserProfile} {q : Nat × UserProfile} (h : q ∈ prof_set l a v) :
    q ∈ l ∨ q = (a, v) := by
  unfold prof_set at h
  rcases List.mem_map.mp h with ⟨p, hp, he⟩
  by_cases hc : p.1 = a
  · simp [hc] at he; right; exact he.symm
  · simp [hc] at he; left; exact he ▸ hp

/-- Distinct keys give "at most one entry per key". -/
theorem nodup_keys_countP {K V : Type} [BEq K] [LawfulBEq K]
    (l : List (K × V)) (h : (l.map Prod.fst).Nodup) (k : K) :
    l.countP (fun p => p.1 == k) ≤ 1 := by
  induction l with
  | nil => simp
  | cons p t ih =>
    simp only [List.map_cons, List.nodup_cons] at h
    by_cases hk : p.1 = k
    · rw [List.countP_cons_of_pos _ _ (by simp [hk])]
      have ht : t.countP (fun q => q.1 == k) = 0 := by
        rw [List.countP_eq_zero]
        intro q hq
        simp only [beq_iff_eq]
        intro hqe
        apply h.1
        have hpq : p.1 = q.1 := by rw [hk, hqe]
        rw [hpq]
        exact List.mem_map.mpr ⟨q, hq, rfl⟩
      omega
    · rw [List.countP_cons_of_neg _ _ (by simp [hk])]
      exact ih h.2

-- ====== State invariants ======

/-- `PaymentCounter.counter` agrees with `FacePaySystem.total_payments`
wherever the system resource is published. -/
def InvCounter (s : ChainState) : Prop :=
  ∀ a sys, s.facepay_system a = some sys →
    s.payment_counter a = some sys.total_payments

/-- Every published registry's two index tables have distinct keys. -/
def InvRegistry (s : ChainState) : Prop :=
  ∀ a cfg, s.registry_config a = some cfg →
    (cfg.face_to_user.map Prod.fst).Nodup ∧
    (cfg.address_to_user.map Prod.fst).Nodup

/-- At most one `UserProfile` resource per account address. -/
def InvProfiles (s : ChainState) : Prop :=
  (s.user_profiles.map Prod.fst).Nodup

/-- No published profile ever has a nonzero `payment_count` (nothing in the
repository invokes `increment_payment_count`). -/
def InvPayCount (s : ChainState) : Prop :=
  ∀ p ∈ s.user_profiles, p.2.payment_count = 0

def SysInv (s : ChainState) : Prop :=
  InvCounter s ∧ InvRegistry s ∧ InvProfiles s ∧ InvPayCount s

theorem inv_init (bal : Nat → Nat) : SysInv (init_state bal) := by
  refine ⟨fun a sys hs => ?_, fun a cfg hc => ?_, ?_, fun p hp => ?_⟩ <;>
    simp [init_state, InvProfiles] at *

-- ====== Preservation lemmas ======

theorem registry_init_inv {admin : Nat} {s s' : ChainState}
    (h : registry_init admin s = .ok s') (hI : SysInv s) : SysInv s' := by
  obtain ⟨h1, h2, h3, h4⟩ := hI
  unfold registry_init at h
  split at h
  · exact absurd h (by simp)
  split at h
  · exact absurd h (by simp)
  injection h with h
  subst h
  refine ⟨h1, ?_, h3, h4⟩
  intro a cfg hc
  dsimp only at hc
  by_cases ha : a = admin
  · subst ha; rw [upd_self] at hc
    cases hc; exact ⟨List.nodup_nil, List.nodup_nil⟩
  · rw [upd_ne _ _ _ _ ha] at hc; exact h2 a cfg hc

theorem prof_find_isSome (l : List (Nat × UserProfile)) (a : Nat) :
    (prof_find l a).isSome = true ↔ a ∈ l.map Prod.fst := by
  simp [prof_find, List.find?_isSome, List.mem_map]

theorem prof_find_mem {l : List (Nat × UserProfile)} {a : Nat}
    {v : UserProfile} (h : prof_find l a = some v) : (a, v) ∈ l := by
  unfold prof_find at h
  cases hf : l.find? fun p => p.1 == a with
  | none => rw [hf] at h; exact absurd h (by simp)
  | some q =>
    rw [hf] at h
    have hq := List.find?_some hf
    have hm := List.mem_of_find?_eq_some hf
    simp only [beq_iff_eq] at hq
    simp only [Option.map_some'] at h
    injection h with h
    subst h
    cases q with
    | mk q1 q2 =>
      simp only at hq
      subst hq
      exact hm

theorem register_user_inv {user tok ra now : Nat} {fh blob dn : String}
    {s s' : ChainState} (h : register_user user fh blob tok dn ra now s = .ok s')
    (hI : SysInv s) : SysInv s' := by
  obtain ⟨h1, h2, h3, h4⟩ := hI
  unfold register_user at h
  split at h
  · exact absurd h (by simp)
  split at h
  · exact absurd h (by simp)
  rename_i cfg hcfg
  split at h
  · exact absurd h (by simp)
  rename_i hface
  split at h
  · exact absurd h (by simp)
  rename_i haddr
  split at h
  · exact absurd h (by simp)
  rename_i hprof
  injection h with h
  subst h
  have hcfgN := h2 ra cfg hcfg
  refine ⟨h1, ?_, ?_, ?_⟩
  · intro a cfg0 hc
    dsimp only at hc
    by_cases ha : a = ra
    · subst ha
      rw [upd_self] at hc
      cases hc
      constructor
      · simp only [List.map_cons, List.nodup_cons]
        exact ⟨fun hm => hface ((st_contains_iff _ _).mpr hm), hcfgN.1⟩
      · simp only [List.map_cons, List.nodup_cons]
        exact ⟨fun hm => haddr ((st_contains_iff _ _).mpr hm), hcfgN.2⟩
    · rw [upd_ne _ _ _ _ ha] at hc
      exact h2 a cfg0 hc
  · show (((user, _) :: s.user_profiles).map Prod.fst).Nodup
    simp only [List.map_cons, List.nodup_cons]
    exact ⟨fun hm => hprof ((prof_find_isSome _ _).mpr hm), h3⟩
  · intro p hp
    rcases List.mem_cons.mp hp with hh | ht
    · subst hh; rfl
    · exact h4 p ht

theorem update_preferences_inv {user tok ra now : Nat} {dn : String}
    {s s' : ChainState} (h : update_preferences user tok dn ra now s = .ok s')
    (hI : SysInv s) : SysInv s' := by
  obtain ⟨h1, h2, h3, h4⟩ := hI
  unfold update_preferences at h
  split at h
  · exact absurd h (by simp)
  rename_i prof hprof
  split at h
  · exact absurd h (by simp)
  rename_i cfg hcfg
  injection h with h
  subst h
  refine ⟨h1, ?_, ?_, ?_⟩
  · intro a cfg0 hc
    dsimp only at hc
    by_cases ha : a = ra
    · subst ha
      rw [upd_self] at hc
      cases hc
      exact h2 _ cfg hcfg
    · rw [upd_ne _ _ _ _ ha] at hc
      exact h2 a cfg0 hc
  · show ((prof_set s.user_profiles user _).map Prod.fst).Nodup
    rw [prof_set_keys]
    exact h3
  · intro p hp
    rcases prof_set_mem hp with hm | he
    · exact h4 p hm
    · subst he
      exact h4 (user, prof) (prof_find_mem hprof)

theorem verify_user_inv {admin ua ra now : Nat} {s s' : ChainState}
    (h : verify_user admin ua ra now s = .ok s') (hI : SysInv s) : SysInv s' := by
  obtain ⟨h1, h2, h3, h4⟩ := hI
  unfold verify_user at h
  split at h
  · exact absurd h (by simp)
  split at h
  · exact absurd h (by simp)
  split at h
  · exact absurd h (by simp)
  rename_i prof hprof
  split at h
  · exact absurd h (by simp)
  rename_i cfg hcfg
  injection h with h
  subst h
  refine ⟨h1, ?_, ?_, ?_⟩
  · intro a cfg0 hc
    dsimp only at hc
    by_cases ha : a = ra
    · subst ha
      rw [upd_self] at hc
      cases hc
      exact h2 _ cfg hcfg
    · rw [upd_ne _ _ _ _ ha] at hc
      exact h2 a cfg0 hc
  · show ((prof_set s.user_profiles ua _).map Prod.fst).Nodup
    rw [prof_set_keys]
    exact h3
  · intro p hp
    rcases prof_set_mem hp with hm | he
    · exact h4 p hm
    · subst he
      exact h4 (ua, prof) (prof_find_mem hprof)

theorem unverify_user_inv {admin ua ra now : Nat} {s s' : ChainState}
    (h : unverify_user admin ua ra now s = .ok s') (hI : SysInv s) : SysInv s' := by
  obtain ⟨h1, h2, h3, h4⟩ := hI
  unfold unverify_user at h
  split at h
  · exact absurd h (by simp)
  split at h
  · exact absurd h (by simp)
  split at h
  · exact absurd h (by simp)
  rename_i prof hprof
  split at h
  · exact absurd h (by simp)
  rename_i cfg hcfg
  injection h with h
  subst h
  refine ⟨h1, ?_, ?_, ?_⟩
  · intro a cfg0 hc
    dsimp only at hc
    by_cases ha : a = ra
    · subst ha
      rw [upd_self] at hc
      cases hc
      exact h2 _ cfg hcfg
    · rw [upd_ne _ _ _ _ ha] at hc
      exact h2 a cfg0 hc
  · show ((prof_set s.user_profiles ua _).map Prod.fst).Nodup
    rw [prof_set_keys]
    exact h3
  · intro p hp
    rcases prof_set_mem hp with hm | he
    · exact h4 p hm
    · subst he
      exact h4 (ua, prof) (prof_find_mem hprof)

theorem facepay_init_inv {admin ra : Nat} {s s' : ChainState}
    (h : facepay_init admin ra s = .ok s') (hI : SysInv s) : SysInv s' := by
  obtain ⟨h1, h2, h3, h4⟩ := hI
  unfold facepay_init at h
  split at h
  · exact absurd h (by simp)
  split at h
  · exact absurd h (by simp)
  split at h
  · exact absurd h (by simp)
  injection h with h
  subst h
  refine ⟨?_, h2, h3, h4⟩
  intro a sys0 hs
  dsimp only at hs
  dsimp only
  by_cases ha : a = admin
  · subst ha
    rw [upd_self] at hs
    cases hs
    rw [upd_self]
  · rw [upd_ne _ _ _ _ ha] at hs
    rw [upd_ne _ _ _ _ ha]
    exact h1 a sys0 hs

theorem pay_by_face_apt_inv {sender amount sa now : Nat} {fh : String}
    {s s' : ChainState} (h : pay_by_face_apt sender fh amount sa now s = .ok s')
    (hI : SysInv s) : SysInv s' := by
  obtain ⟨h1, h2, h3, h4⟩ := hI
  unfold pay_by_face_apt at h
  dsimp only at h
  split at h
  · exact absurd h (by simp)
  split at h
  · exact absurd h (by simp)
  rename_i sys hsys
  split at h
  · exact absurd h (by simp)
  rename_i recipient hrec
  split at h
  · exact absurd h (by simp)
  split at h
  · exact absurd h (by simp)
  split at h
  · exact absurd h (by simp)
  rename_i counter hctr
  split at h
  · exact absurd h (by simp)
  split at h
  · exact absurd h (by simp)
  injection h with h
  subst h
  refine ⟨?_, h2, h3, h4⟩
  intro a sys0 hs
  dsimp only at hs
  dsimp only
  by_cases ha : a = sa
  · subst ha
    rw [upd_self] at hs
    cases hs
    rw [upd_self]
    have he := h1 _ sys hsys
    rw [hctr] at he
    injection he with he
    dsimp only
    rw [← he]
  · rw [upd_ne _ _ _ _ ha] at hs
    rw [upd_ne _ _ _ _ ha]
    exact h1 a sys0 hs

theorem pay_by_face_apt_with_profile_inv {sender amount sa now : Nat}
    {fh : String} {s s' : ChainState}
    (h : pay_by_face_apt_with_profile sender fh amount sa now s = .ok s')
    (hI : SysInv s) : SysInv s' := by
  obtain ⟨h1, h2, h3, h4⟩ := hI
  unfold pay_by_face_apt_with_profile at h
  dsimp only at h
  split at h
  · exact absurd h (by simp)
  split at h
  · exact absurd h (by simp)
  rename_i sys hsys
  split at h
  · exact absurd h (by simp)
  rename_i recipient hrec
  split at h
  · exact absurd h (by simp)
  split at h
  · exact absurd h (by simp)
  split at h
  · exact absurd h (by simp)
  split at h
  · exact absurd h (by simp)
  rename_i counter hctr
  split at h
  · exact absurd h (by simp)
  split at h
  · exact absurd h (by simp)
  injection h with h
  subst h
  refine ⟨?_, h2, h3, h4⟩
  intro a sys0 hs
  dsimp only at hs
  dsimp only
  by_cases ha : a = sa
  · subst ha
    rw [upd_self] at hs
    cases hs
    rw [upd_self]
    have he := h1 _ sys hsys
    rw [hctr] at he
    injection he with he
    dsimp only
    rw [← he]
  · rw [upd_ne _ _ _ _ ha] at hs
    rw [upd_ne _ _ _ _ ha]
    exact h1 a sys0 hs

theorem add_supported_token_inv {admin tok mina sa : Nat} {s s' : ChainState}
    (h : add_supported_token admin tok mina sa s = .ok s') (hI : SysInv s) :
    SysInv s' := by
  obtain ⟨h1, h2, h3, h4⟩ := hI
  unfold add_supported_token at h
  split at h
  · exact absurd h (by simp)
  split at h
  · exact absurd h (by simp)
  split at h
  · exact absurd h (by simp)
  rename_i sys hsys
  split at h
  · exact absurd h (by simp)
  split at h
  · exact absurd h (by simp)
  injection h with h
  subst h
  refine ⟨?_, h2, h3, h4⟩
  intro a sys0 hs
  dsimp only at hs
  dsimp only
  by_cases ha : a = sa
  · subst ha
    rw [upd_self] at hs
    cases hs
    exact h1 _ sys hsys
  · rw [upd_ne _ _ _ _ ha] at hs
    exact h1 a sys0 hs

theorem remove_supported_token_inv {admin tok sa : Nat} {s s' : ChainState}
    (h : remove_supported_token admin tok sa s = .ok s') (hI : SysInv s) :
    SysInv s' := by
  obtain ⟨h1, h2, h3, h4⟩ := hI
  unfold remove_supported_token at h
  split at h
  · exact absurd h (by simp)
  split at h
  · exact absurd h (by simp)
  split at h
  · exact absurd h (by simp)
  rename_i sys hsys
  injection h with h
  subst h
  refine ⟨?_, h2, h3, h4⟩
  intro a sys0 hs
  dsimp only at hs
  dsimp only
  by_cases ha : a = sa
  · subst ha
    rw [upd_self] at hs
    cases hs
    exact h1 _ sys hsys
  · rw [upd_ne _ _ _ _ ha] at hs
    exact h1 a sys0 hs

theorem update_fee_bps_inv {admin rate sa : Nat} {s s' : ChainState}
    (h : update_fee_bps admin rate sa s = .ok s') (hI : SysInv s) :
    SysInv s' := by
  obtain ⟨h1, h2, h3, h4⟩ := hI
  unfold update_fee_bps at h
  split at h
  · exact absurd h (by simp)
  split at h
  · exact absurd h (by simp)
  split at h
  · exact absurd h (by simp)
  split at h
  · exact absurd h (by simp)
  rename_i sys hsys
  injection h with h
  subst h
  refine ⟨?_, h2, h3, h4⟩
  intro a sys0 hs
  dsimp only at hs
  dsimp only
  by_cases ha : a = sa
  · subst ha
    rw [upd_self] at hs
    cases hs
    exact h1 _ sys hsys
  · rw [upd_ne _ _ _ _ ha] at hs
    exact h1 a sys0 hs

theorem sysinv_enhanced {s : ChainState} {e : Nat → Option EnhancedPaymentConfig} :
    SysInv { s with enhanced_config := e } ↔ SysInv s := Iff.rfl

theorem enhanced_init_inv {admin sa ra : Nat} {s s' : ChainState}
    (h : enhanced_init admin sa ra s = .ok s') (hI : SysInv s) : SysInv s' := by
  unfold enhanced_init at h
  split at h
  · exact absurd h (by simp)
  injection h with h
  subst h
  exact sysinv_enhanced.mpr hI

theorem pay_by_face_enhanced_inv {sender amount ea now : Nat} {fh : String}
    {s s' : ChainState} (h : pay_by_face_enhanced sender fh amount ea now s = .ok s')
    (hI : SysInv s) : SysInv s' := by
  unfold pay_by_face_enhanced at h
  dsimp only at h
  split at h
  · exact absurd h (by simp)
  rename_i config hcfg
  split at h
  · exact absurd h (by simp)
  rename_i recipient hrec
  split at h
  · exact absurd h (by simp)
  split at h
  · exact absurd h (by simp)
  split at h
  · exact absurd h (by simp)
  split at h
  · exact absurd h (by simp)
  rename_i s2 hinner
  injection h with h
  subst h
  exact sysinv_enhanced.mpr
    (pay_by_face_apt_with_profile_inv hinner (sysinv_enhanced.mpr hI))

theorem pay_by_face_enhanced_with_verification_inv {sender amount ea now : Nat}
    {fh : String} {s s' : ChainState}
    (h : pay_by_face_enhanced_with_verification sender fh amount ea now s = .ok s')
    (hI : SysInv s) : SysInv s' := by
  unfold pay_by_face_enhanced_with_verification at h
  dsimp only at h
  split at h
  · exact absurd h (by simp)
  rename_i config hcfg
  split at h
  · exact absurd h (by simp)
  rename_i recipient hrec
  split at h
  · exact absurd h (by simp)
  split at h
  · exact absurd h (by simp)
  split at h
  · exact absurd h (by simp)
  split at h
  · exact absurd h (by simp)
  split at h
  · exact absurd h (by simp)
  rename_i s2 hinner
  injection h with h
  subst h
  exact sysinv_enhanced.mpr
    (pay_by_face_apt_with_profile_inv hinner (sysinv_enhanced.mpr hI))

theorem pay_by_face_with_swap_enhanced_inv {sender amount ea now : Nat}
    {fh : String} {s s' : ChainState}
    (h : pay_by_face_with_swap_enhanced sender fh amount ea now s = .ok s')
    (hI : SysInv s) : SysInv s' := by
  unfold pay_by_face_with_swap_enhanced at h
  split at h
  · exact absurd h (by simp)
  exact pay_by_face_enhanced_inv h hI

theorem step_inv {s s' : ChainState} (h : Step s s') (hI : SysInv s) :
    SysInv s' := by
  cases h with
  | registry_init a _ _ he => exact registry_init_inv he hI
  | register_user u fh blob tok dn ra now _ _ he => exact register_user_inv he hI
  | update_preferences u tok dn ra now _ _ he => exact update_preferences_inv he hI
  | verify_user a ua ra now _ _ he => exact verify_user_inv he hI
  | unverify_user a ua ra now _ _ he => exact unverify_user_inv he hI
  | facepay_init a ra _ _ he => exact facepay_init_inv he hI
  | pay_by_face_apt se fh am sa now _ _ he => exact pay_by_face_apt_inv he hI
  | pay_by_face_apt_with_profile se fh am sa now _ _ he =>
      exact pay_by_face_apt_with_profile_inv he hI
  | add_supported_token a tok mina sa _ _ he => exact add_supported_token_inv he hI
  | remove_supported_token a tok sa _ _ he => exact remove_supported_token_inv he hI
  | update_fee_bps a rate sa _ _ he => exact update_fee_bps_inv he hI
  | enhanced_init a sa ra _ _ he => exact enhanced_init_inv he hI
  | pay_by_face_enhanced se fh am ea now _ _ he => exact pay_by_face_enhanced_inv he hI
  | pay_by_face_enhanced_with_verification se fh am ea now _ _ he =>
      exact pay_by_face_enhanced_with_verification_inv he hI
  | pay_by_face_with_swap_enhanced se fh am ea now _ _ he =>
      exact pay_by_face_with_swap_enhanced_inv he hI

/-- Every reachable state satisfies the conjunction of system invariants. -/
theorem reachable_inv {s : ChainState} (h : Reachable s) : SysInv s := by
  obtain ⟨bal, hr⟩ := h
  induction hr with
  | refl => exact inv_init bal
  | tail _ hbc ih => exact step_inv hbc ih

-- ====== Concrete scenario states ======

/-- Funding: account 9 holds 3 APT (in octas ×10⁻²); everyone else 0. -/
def balW : Nat → Nat := fun a => if a = 9 then 3000000 else 0

def w0 : ChainState := init_state balW

/-- Registry published at account 2. -/
def w1 : ChainState := (registry_init 2 w0).toOption.getD w0

/-- Account 5 registered with face hash "f". -/
def w2 : ChainState :=
  (register_user 5 "f" "blob" 1 "alice" 2 0 w1).toOption.getD w1

/-- FacePay system published at account 1 (registry admin 2). -/
def w3 : ChainState := (facepay_init 1 2 w2).toOption.getD w2

/-- One successful payment: 9 pays 1000000 octas to face "f" (account 5). -/
def w4 : ChainState :=
  (pay_by_face_apt 9 "f" 1000000 1 0 w3).toOption.getD w3

/-- The system resource as published in `w3`. -/
def sysW : FacePaySystem :=
  { supported_tokens := [(1, true)], min_amounts := [(1, MIN_PAYMENT_AMOUNT)],
    fee_bps := DEFAULT_FEE_BPS, total_payments := 0, total_volume := 0,
    registry_admin := 2, payment_initiated_events := [],
    payment_completed_events := [], payment_failed_events := [] }

theorem w4_reachable : Reachable w4 :=
  ⟨balW,
    Relation.ReflTransGen.tail
      (Relation.ReflTransGen.tail
        (Relation.ReflTransGen.tail
          (Relation.ReflTransGen.tail Relation.ReflTransGen.refl
            (Step.registry_init 2 w0 w1 rfl))
          (Step.register_user 5 "f" "blob" 1 "alice" 2 0 w1 w2 rfl))
        (Step.facepay_init 1 2 w2 w3 rfl))
      (Step.pay_by_face_apt 9 "f" 1000000 1 0 w3 w4 rfl)⟩

/-- Fee rate raised to 100 bps by the admin. -/
def y4 : ChainState := (update_fee_bps 1 100 1 w3).toOption.getD w3

/-- Enhanced payment config published at account 3. -/
def y5 : ChainState := (enhanced_init 3 1 2 y4).toOption.getD y4

theorem y5_reachable : Reachable y5 :=
  ⟨balW,
    Relation.ReflTransGen.tail
      (Relation.ReflTransGen.tail
        (Relation.ReflTransGen.tail
          (Relation.ReflTransGen.tail
            (Relation.ReflTransGen.tail Relation.ReflTransGen.refl
              (Step.registry_init 2 w0 w1 rfl))
            (Step.register_user 5 "f" "blob" 1 "alice" 2 0 w1 w2 rfl))
          (Step.facepay_init 1 2 w2 w3 rfl))
        (Step.update_fee_bps 1 100 1 w3 y4 rfl))
      (Step.enhanced_init 3 1 2 y4 y5 rfl)⟩

/-- A second, unrelated registry published at account 7. -/
def v1 : ChainState := (registry_init 7 w2).toOption.getD w2

theorem v1_reachable : Reachable v1 :=
  ⟨balW,
    Relation.ReflTransGen.tail
      (Relation.ReflTransGen.tail
        (Relation.ReflTransGen.tail Relation.ReflTransGen.refl
          (Step.registry_init 2 w0 w1 rfl))
        (Step.register_user 5 "f" "blob" 1 "alice" 2 0 w1 w2 rfl))
      (Step.registry_init 7 w2 v1 rfl)⟩

/-- The admin removes the native token and re-adds it with minimum 2000000. -/
def g1 : ChainState := (remove_supported_token 1 1 1 w3).toOption.getD w3

def g2 : ChainState := (add_supported_token 1 1 2000000 1 g1).toOption.getD g1

theorem g2_reachable : Reachable g2 :=
  ⟨balW,
    Relation.ReflTransGen.tail
      (Relation.ReflTransGen.tail
        (Relation.ReflTransGen.tail
          (Relation.ReflTransGen.tail
            (Relation.ReflTransGen.tail Relation.ReflTransGen.refl
              (Step.registry_init 2 w0 w1 rfl))
            (Step.register_user 5 "f" "blob" 1 "alice" 2 0 w1 w2 rfl))
          (Step.facepay_init 1 2 w2 w3 rfl))
        (Step.remove_supported_token 1 1 1 w3 g1 rfl))
      (Step.add_supported_token 1 1 2000000 1 g1 g2 rfl)⟩

/-- Funding for the sender-is-admin scenario: account 1 holds 2000000. -/
def balX : Nat → Nat := fun a => if a = 1 then 2000000 else 0

def x0 : ChainState := init_state balX

def x1 : ChainState := (registry_init 2 x0).toOption.getD x0

def x2 : ChainState :=
  (register_user 5 "f" "blob" 1 "alice" 2 0 x1).toOption.getD x1

def x3 : ChainState := (facepay_init 1 2 x2).toOption.getD x2

/-- The system admin itself pays account 5. -/
def x4 : ChainState :=
  (pay_by_face_apt 1 "f" 1000000 1 0 x3).toOption.getD x3

-- ====== Claim C1 ======

/-- C1 (amended): for every successful `pay_by_face_apt` call with amount
`a` under fee rate `r = fee_bps`, where the recipient is distinct from the
fee-collecting admin account **and the sender is distinct from that admin
account as well**: the sender's balance decreases by exactly `a`, the fee
collector's balance increases by exactly `a*r/10000` (floor), the
recipient's balance increases by exactly `a - a*r/10000`, and
`total_payments` / `total_volume` grow by exactly 1 and `a`. -/
theorem C1_pay_effects (sender amount system_admin now : Nat) (fh : String)
    (s s' : ChainState) (sys : FacePaySystem) (recipient : Nat)
    (hsys : s.facepay_system system_admin = some sys)
    (hrec : get_user_by_face_hash sys.registry_admin fh s = some recipient)
    (hra : recipient ≠ system_admin) (hsa : sender ≠ system_admin)
    (h : pay_by_face_apt sender fh amount system_admin now s = .ok s') :
    s'.balance sender + amount = s.balance sender ∧
    s'.balance system_admin
      = s.balance system_admin + amount * sys.fee_bps / 10000 ∧
    s'.balance recipient
      = s.balance recipient + (amount - amount * sys.fee_bps / 10000) ∧
    ∃ sys', s'.facepay_system system_admin = some sys' ∧
      sys'.total_payments = sys.total_payments + 1 ∧
      sys'.total_volume = sys.total_volume + amount := by
  unfold pay_by_face_apt at h
  dsimp only at h
  split at h
  · exact absurd h (by simp)
  rename_i hmin
  split at h
  · exact absurd h (by simp)
  rename_i sys0 hsys0
  rw [hsys] at hsys0
  injection hsys0 with hsys0
  subst hsys0
  split at h
  · exact absurd h (by simp)
  rename_i recipient0 hrec0
  rw [hrec] at hrec0
  injection hrec0 with hrec0
  subst hrec0
  split at h
  · exact absurd h (by simp)
  rename_i hsr
  split at h
  · exact absurd h (by simp)
  rename_i hbal
  split at h
  · exact absurd h (by simp)
  rename_i counter hctr
  split at h
  · exact absurd h (by simp)
  rename_i hfee
  split at h
  · exact absurd h (by simp)
  rename_i hptx
  injection h with h
  subst h
  refine ⟨?_, ?_, ?_, ?_⟩
  · dsimp only
    rw [set_bal_ne _ _ _ _ hsr, set_bal_ne _ _ _ _ hsa, set_bal_self]
    exact Nat.sub_add_cancel (Nat.le_of_not_lt hbal)
  · dsimp only
    rw [set_bal_ne _ _ _ _ (Ne.symm hra), set_bal_self,
      set_bal_ne _ _ _ _ (Ne.symm hsa)]
  · dsimp only
    rw [set_bal_self, set_bal_ne _ _ _ _ hra,
      set_bal_ne _ _ _ _ (Ne.symm hsr)]
  · dsimp only
    exact ⟨_, upd_self _ _ _, rfl, rfl⟩

/-- C1 witness: in `w3`, account 9 pays 1000000 octas to face "f"
(account 5) under fee rate 30 bps; the three balances and both counters
move exactly as `C1_pay_effects` states. -/
theorem C1_pay_effects_witness :
    w4.balance 9 + 1000000 = w3.balance 9 ∧
    w4.balance 1 = w3.balance 1 + 1000000 * sysW.fee_bps / 10000 ∧
    w4.balance 5 = w3.balance 5 + (1000000 - 1000000 * sysW.fee_bps / 10000) ∧
    ∃ sys', w4.facepay_system 1 = some sys' ∧
      sys'.total_payments = sysW.total_payments + 1 ∧
      sys'.total_volume = sysW.total_volume + 1000000 :=
  C1_pay_effects 9 1000000 1 0 "f" w3 w4 sysW 5
    rfl rfl (by decide) (by decide) rfl

/-- C1 counterexample: when the sender *is* the fee-collecting admin
(account 1 paying account 5), the call succeeds but the sender's balance
does not decrease by the full amount, and the fee collector's balance does
not increase by the fee (the two roles alias): the claim as stated fails. -/
theorem C1_pay_effects_cx :
    pay_by_face_apt 1 "f" 1000000 1 0 x3 = .ok x4 ∧
    x3.facepay_system 1 = some sysW ∧
    get_user_by_face_hash 2 "f" x3 = some 5 ∧
    (5 : Nat) ≠ 1 ∧
    ¬(x4.balance 1 + 1000000 = x3.balance 1) ∧
    ¬(x4.balance 1 = x3.balance 1 + 1000000 * sysW.fee_bps / 10000) := by
  refine ⟨rfl, rfl, rfl, by decide, ?_, ?_⟩ <;> decide

-- ====== Claim C2 ======

/-- C2: in every state reachable through the public operations, each face
fingerprint resolves to at most one account (the `face_to_user` table has
at most one entry per fingerprint) and each account owns at most one
`UserProfile` resource. -/
theorem C2_uniqueness (s : ChainState) (h : Reachable s) :
    (∀ a cfg, s.registry_config a = some cfg →
      ∀ f, cfg.face_to_user.countP (fun p => p.1 == f) ≤ 1) ∧
    (∀ a, s.user_profiles.countP (fun p => p.1 == a) ≤ 1) := by
  obtain ⟨-, h2, h3, -⟩ := reachable_inv h
  constructor
  · intro a cfg hc f
    exact nodup_keys_countP _ (h2 a cfg hc).1 f
  · intro a
    exact nodup_keys_countP _ h3 a

/-- C2 witness: the reachable state `w4` (registry, one registrant, one
completed payment) satisfies both uniqueness bounds. -/
theorem C2_uniqueness_witness :
    Reachable w4 ∧
    ((∀ a cfg, w4.registry_config a = some cfg →
      ∀ f, cfg.face_to_user.countP (fun p => p.1 == f) ≤ 1) ∧
    (∀ a, w4.user_profiles.countP (fun p => p.1 == a) ≤ 1)) :=
  ⟨w4_reachable, C2_uniqueness w4 w4_reachable⟩

-- ====== Claim C3 ======

/-- C3 (code evaluated at the spec's scenario): in every reachable state —
including states reached through successful `pay_by_face_apt` /
`pay_by_face_apt_with_profile` / enhanced payments — every registered
profile still has `payment_count = 0`: no payment path ever invokes
`increment_payment_count`, so the `payments_received` counter is never
incremented by the Ledger. -/
theorem C3_payment_count_never_incremented (s : ChainState) (h : Reachable s) :
    ∀ p ∈ s.user_profiles, p.2.payment_count = 0 :=
  (reachable_inv h).2.2.2

/-- C3 witness: in `w4` the recipient (account 5) has received one
successful payment (`total_payments = 1`), yet its profile's
`payment_count` is still 0. -/
theorem C3_payment_count_never_incremented_witness :
    Reachable w4 ∧
    (∀ p ∈ w4.user_profiles, p.2.payment_count = 0) ∧
    (prof_find w4.user_profiles 5).map (fun p => p.payment_count) = some 0 ∧
    (w4.facepay_system 1).map (fun sys => sys.total_payments) = some 1 :=
  ⟨w4_reachable, C3_payment_count_never_incremented w4 w4_reachable, rfl, rfl⟩

-- ====== Claim C10 ======

/-- C10: in every reachable state, wherever a `FacePaySystem` resource is
published, the `PaymentCounter` at the same address equals its
`total_payments` (both start at 0 at publication and every successful
payment increments both by exactly 1). -/
theorem C10_counter_sync (s : ChainState) (h : Reachable s) :
    ∀ a sys, s.facepay_system a = some sys →
      s.payment_counter a = some sys.total_payments :=
  (reachable_inv h).1

/-- C10 witness: in `w4` (one completed payment), the counter at the admin
reads 1 and equals `total_payments`. -/
theorem C10_counter_sync_witness :
    Reachable w4 ∧
    (∀ a sys, w4.facepay_system a = some sys →
      w4.payment_counter a = some sys.total_payments) ∧
    w4.payment_counter 1 = some 1 ∧
    (w4.facepay_system 1).map (fun sys => sys.total_payments) = some 1 :=
  ⟨w4_reachable, C10_counter_sync w4 w4_reachable, rfl, rfl⟩

-- ====== Claim C4 ======

/-- C4 (code evaluated at the spec's scenario): a sender's first
`pay_by_face_apt` succeeds, but resubmitting the *identical* call aborts
with `resource_exists`: the `PaymentTx` record is stored with
`move_to(sender, ...)` and `PaymentTx has key`, so a second receipt can
never be stored at the same sender — the claimed second receipt and second
transfer do not happen. -/
theorem C4_resubmission_aborts :
    pay_by_face_apt 9 "f" 1000000 1 0 w3 = .ok w4 ∧
    pay_by_face_apt 9 "f" 1000000 1 0 w4 = .error .resource_exists ∧
    w4.balance 9 = 2000000 ∧
    (ptx_find w4.payment_txs 9).isSome = true :=
  ⟨rfl, rfl, rfl, rfl⟩

-- ====== Claim C6 ======

/-- C6 (amended): `verify_user` and `unverify_user` on `registry_admin`'s
registry fail with `Unauthorized` for every caller holding no `AdminCap`
resource at all, and succeed only for callers holding *an* `AdminCap` —
any capability minted by initialising *some* registry, not necessarily the
one bound to the target registry. -/
theorem C6_verify_auth (admin ua ra now : Nat) (s : ChainState) :
    (s.registry_admin_cap admin = none →
      verify_user admin ua ra now s =
        .error (.permission_denied R_E_NOT_AUTHORIZED) ∧
      unverify_user admin ua ra now s =
        .error (.permission_denied R_E_NOT_AUTHORIZED)) ∧
    (∀ t, verify_user admin ua ra now s = .ok t →
      s.registry_admin_cap admin = some admin) ∧
    (∀ t, unverify_user admin ua ra now s = .ok t →
      s.registry_admin_cap admin = some admin) := by
  refine ⟨?_, ?_, ?_⟩
  · intro hnone
    constructor
    · unfold verify_user
      rw [hnone]
    · unfold unverify_user
      rw [hnone]
  · intro t h
    unfold verify_user at h
    split at h
    · exact absurd h (by simp)
    rename_i cap hcap
    split at h
    · exact absurd h (by simp)
    rename_i hne
    have hceq : cap = admin := not_not.mp hne
    subst hceq
    exact hcap
  · intro t h
    unfold unverify_user at h
    split at h
    · exact absurd h (by simp)
    rename_i cap hcap
    split at h
    · exact absurd h (by simp)
    rename_i hne
    have hceq : cap = admin := not_not.mp hne
    subst hceq
    exact hcap

/-- C6 witness: account 8, which never initialised a registry, is rejected
with `Unauthorized` both when it tries to verify and when it tries to
unverify account 5 on registry 2. -/
theorem C6_verify_auth_witness :
    verify_user 8 5 2 3 v1 = .error (.permission_denied R_E_NOT_AUTHORIZED) ∧
    unverify_user 8 5 2 3 v1 =
      .error (.permission_denied R_E_NOT_AUTHORIZED) :=
  ⟨((C6_verify_auth 8 5 2 3 v1).1 rfl).1, ((C6_verify_auth 8 5 2 3 v1).1 rfl).2⟩

/-- The cross-registry verification succeeding (used as C6 counterexample). -/
def v2 : ChainState := (verify_user 7 5 2 3 v1).toOption.getD v1

/-- The cross-registry un-verification succeeding (C6 counterexample). -/
def v3 : ChainState := (unverify_user 7 5 2 4 v2).toOption.getD v2

/-- C6 counterexample: registry 2 was initialised by account 2, whose
`AdminCap` is the one "bound to that registry"; yet account 7 — holding
only the `AdminCap` of its *own* registry 7 — successfully verifies, and
then successfully unverifies, a user of registry 2 instead of failing with
`Unauthorized`. -/
theorem C6_verify_auth_cx :
    Reachable v1 ∧
    v1.registry_admin_cap 2 = some 2 ∧
    v1.registry_admin_cap 7 = some 7 ∧
    (7 : Nat) ≠ 2 ∧
    verify_user 7 5 2 3 v1 = .ok v2 ∧
    (prof_find v2.user_profiles 5).map (fun p => p.is_verified) = some true ∧
    unverify_user 7 5 2 4 v2 = .ok v3 ∧
    (prof_find v3.user_profiles 5).map (fun p => p.is_verified) = some false :=
  ⟨v1_reachable, rfl, rfl, by decide, rfl, rfl, rfl, rfl⟩

-- ====== Claim C7 ======

/-- C7 (amended): `pay_by_face_apt` fails with the below-minimum abort
(`invalid_argument E_INVALID_AMOUNT`, before any state mutation) exactly
when the amount is below the *hardcoded constant* `MIN_PAYMENT_AMOUNT`
(1000000 octas) — the check never consults the configurable `min_amounts`
table. -/
theorem C7_min_amount_check (sender : Nat) (fh : String)
    (amount system_admin now : Nat) (s : ChainState) :
    pay_by_face_apt sender fh amount system_admin now s =
      .error (.invalid_argument F_E_INVALID_AMOUNT) ↔
    amount < MIN_PAYMENT_AMOUNT := by
  constructor
  · intro hE
    by_contra hm
    unfold pay_by_face_apt at hE
    rw [if_neg hm] at hE
    dsimp only at hE
    repeat' split at hE
    all_goals simp [F_E_SYSTEM_NOT_INITIALIZED, F_E_RECIPIENT_NOT_FOUND,
      F_E_SAME_SENDER_RECIPIENT, F_E_INSUFFICIENT_BALANCE,
      F_E_INVALID_AMOUNT] at hE
  · intro hm
    unfold pay_by_face_apt
    rw [if_pos hm]

/-- C7 witness: an amount one octa below the constant minimum is rejected
with the below-minimum abort. -/
theorem C7_min_amount_check_witness :
    pay_by_face_apt 9 "f" 999999 1 0 w3 =
      .error (.invalid_argument F_E_INVALID_AMOUNT) :=
  (C7_min_amount_check 9 "f" 999999 1 0 w3).mpr (by decide)

/-- The payment that the table-based claim says must fail (C7 cx). -/
def g3 : ChainState :=
  (pay_by_face_apt 9 "f" 1500000 1 0 g2).toOption.getD g2

/-- C7 counterexample: in the reachable configuration `g2` the native
token's `min_amounts` entry reads 2000000, yet a payment of 1500000 —
below that configured minimum — succeeds instead of failing with the
below-minimum abort. -/
theorem C7_min_amount_check_cx :
    Reachable g2 ∧
    get_min_payment_amount 1 1 g2 = 2000000 ∧
    (1500000 : Nat) < 2000000 ∧
    pay_by_face_apt 9 "f" 1500000 1 0 g2 = .ok g3 :=
  ⟨g2_reachable, rfl, by decide, rfl⟩

-- ====== Claim C8 ======

/-- C8: a successful `register_user` with fingerprint `fh` from account
`user` followed immediately by `get_user_by_face_hash` with the same `fh`
on the same registry returns `some user`. -/
theorem C8_register_then_lookup (user : Nat) (fh blob dn : String)
    (tok registry_admin now : Nat) (s t : ChainState)
    (h : register_user user fh blob tok dn registry_admin now s = .ok t) :
    get_user_by_face_hash registry_admin fh t = some user := by
  unfold register_user at h
  split at h
  · exact absurd h (by simp)
  split at h
  · exact absurd h (by simp)
  rename_i cfg hcfg
  split at h
  · exact absurd h (by simp)
  split at h
  · exact absurd h (by simp)
  split at h
  · exact absurd h (by simp)
  injection h with h
  subst h
  unfold get_user_by_face_hash
  dsimp only
  rw [upd_self]
  simp [st_borrow, List.find?]

/-- C8 witness: registering account 5 under fingerprint "f" on registry 2
and looking "f" up immediately yields account 5. -/
theorem C8_register_then_lookup_witness :
    get_user_by_face_hash 2 "f" w2 = some 5 :=
  C8_register_then_lookup 5 "f" "blob" "alice" 1 2 0 w1 w2 rfl

-- ====== Claim C9 ======

/-- C9 (amended): for a caller holding the admin capability,
`update_fee_bps` with a rate above 1000 fails with the invalid-fee abort
(`invalid_argument E_INVALID_AMOUNT`) and, being an abort, leaves all
state unchanged; with a rate of at most 1000 on an initialised system it
sets `fee_bps` to the new rate and changes nothing else.  (A caller
*without* the capability is rejected with `Unauthorized` first, even for
rates above 1000 — see the counterexample.) -/
theorem C9_update_fee_spec (admin rate system_admin : Nat) (s : ChainState)
    (hcap : s.facepay_admin_cap admin = some admin) :
    (1000 < rate → update_fee_bps admin rate system_admin s =
      .error (.invalid_argument F_E_INVALID_AMOUNT)) ∧
    (rate ≤ 1000 → ∀ sys, s.facepay_system system_admin = some sys →
      update_fee_bps admin rate system_admin s = .ok { s with
        facepay_system := upd s.facepay_system system_admin
          (some { sys with fee_bps := rate }) }) := by
  constructor
  · intro hgt
    unfold update_fee_bps
    rw [hcap]
    dsimp only
    rw [if_neg (by simp), if_pos hgt]
  · intro hle sys hsys
    unfold update_fee_bps
    rw [hcap]
    dsimp only
    rw [if_neg (by simp), if_neg (by omega), hsys]

/-- C9 witness: the admin (account 1) is rejected with the invalid-fee
abort at rate 2000, and succeeds at rate 100, which only replaces
`fee_bps`. -/
theorem C9_update_fee_spec_witness :
    update_fee_bps 1 2000 1 w3 = .error (.invalid_argument F_E_INVALID_AMOUNT) ∧
    update_fee_bps 1 100 1 w3 = .ok { w3 with
      facepay_system := upd w3.facepay_system 1
        (some { sysW with fee_bps := 100 }) } :=
  ⟨(C9_update_fee_spec 1 2000 1 w3 rfl).1 (by decide),
   (C9_update_fee_spec 1 100 1 w3 rfl).2 (by decide) sysW rfl⟩

/-- C9 counterexample: account 8 holds no admin capability; its call with
rate 2000 (> 1000) fails with `Unauthorized`, not with the invalid-fee
abort the claim requires for *every* over-limit rate. -/
theorem C9_update_fee_spec_cx :
    update_fee_bps 8 2000 1 w3 =
      .error (.permission_denied F_E_NOT_AUTHORIZED) ∧
    MoveErr.permission_denied F_E_NOT_AUTHORIZED ≠
      MoveErr.invalid_argument F_E_INVALID_AMOUNT :=
  ⟨rfl, by decide⟩

-- ====== Claim C5 ======

theorem ptx_find_cons (a : Nat) (v : PaymentTx) (l : List (Nat × PaymentTx)) :
    ptx_find ((a, v) :: l) a = some v := by
  simp [ptx_find, List.find?]

/-- Success spec of `pay_by_face_apt_with_profile`: the receipt stored for
the sender carries `fee_amount = amount * fee_bps / 10000`, and the
enhanced-payment storage is untouched. -/
theorem pay_with_profile_receipt (sender amount sa now : Nat) (fh : String)
    (s t : ChainState) (sys : FacePaySystem)
    (hsys : s.facepay_system sa = some sys)
    (h : pay_by_face_apt_with_profile sender fh amount sa now s = .ok t) :
    (∃ ptx, ptx_find t.payment_txs sender = some ptx ∧
      ptx.fee_amount = amount * sys.fee_bps / 10000) ∧
    t.enhanced_config = s.enhanced_config := by
  unfold pay_by_face_apt_with_profile at h
  dsimp only at h
  split at h
  · exact absurd h (by simp)
  split at h
  · exact absurd h (by simp)
  rename_i sys0 hsys0
  rw [hsys] at hsys0
  injection hsys0 with e
  subst e
  split at h
  · exact absurd h (by simp)
  rename_i recipient hrec
  split at h
  · exact absurd h (by simp)
  split at h
  · exact absurd h (by simp)
  split at h
  · exact absurd h (by simp)
  split at h
  · exact absurd h (by simp)
  rename_i counter hctr
  split at h
  · exact absurd h (by simp)
  split at h
  · exact absurd h (by simp)
  injection h with h
  subst h
  constructor
  · dsimp only
    exact ⟨_, ptx_find_cons _ _ _, rfl⟩
  · rfl

/-- C5 (amended): when the ledger's `fee_bps` equals the default 30, the
fee the Enhanced Payment Façade embeds in its `FacePaymentCompletedEvent`
— re-derived as `amount * 30 / 10000` — equals the fee the ledger actually
charges and records in the sender's receipt.  (For any other reachable
`fee_bps`, the two diverge; see the counterexample.) -/
theorem C5_enhanced_fee (sender amount ea now : Nat) (fh : String)
    (s t : ChainState) (config : EnhancedPaymentConfig) (sys : FacePaySystem)
    (hcfg : s.enhanced_config ea = some config)
    (hsys : s.facepay_system config.system_admin = some sys)
    (hfee : sys.fee_bps = 30)
    (h : pay_by_face_enhanced sender fh amount ea now s = .ok t) :
    ∃ config' ptx ev,
      t.enhanced_config ea = some config' ∧
      ptx_find t.payment_txs sender = some ptx ∧
      config'.face_payment_completed_events.getLast? = some ev ∧
      ev.fee_amount = ptx.fee_amount := by
  unfold pay_by_face_enhanced at h
  dsimp only at h
  split at h
  · exact absurd h (by simp)
  rename_i config0 hcfg0
  rw [hcfg] at hcfg0
  injection hcfg0 with e
  subst e
  split at h
  · exact absurd h (by simp)
  rename_i recipient hrec
  split at h
  · exact absurd h (by simp)
  split at h
  · exact absurd h (by simp)
  split at h
  · exact absurd h (by simp)
  split at h
  · exact absurd h (by simp)
  rename_i s2 hinner
  injection h with h
  subst h
  obtain ⟨⟨ptx, hfind, hptxfee⟩, henh⟩ :=
    pay_with_profile_receipt sender amount config.system_admin now fh
      { s with
        enhanced_config := upd s.enhanced_config ea (some
          { config with
            face_verification_success_events :=
              config.face_verification_success_events ++
                [{ face_hash := fh, recipient_address := recipient,
                   timestamp := now }] }) }
      s2 sys hsys hinner
  refine ⟨?A, ptx, ?B, ?g1, ?g2, ?g3, ?g4⟩
  case g1 =>
    dsimp only
    exact upd_self _ _ _
  case g2 =>
    exact hfind
  case g3 =>
    dsimp only
    rw [List.getLast?_concat]
    exact rfl
  case g4 =>
    dsimp only
    rw [hptxfee, hfee]

/-- Enhanced config published at account 3 over the default-fee system. -/
def e5 : ChainState := (enhanced_init 3 1 2 w3).toOption.getD w3

/-- Enhanced payment from 9 to face "f" under the default 30 bps fee. -/
def e6 : ChainState :=
  (pay_by_face_enhanced 9 "f" 1000000 3 0 e5).toOption.getD e5

/-- The enhanced config resource as published in `e5`. -/
def cfgE : EnhancedPaymentConfig :=
  { system_admin := 1, registry_admin := 2,
    face_payment_completed_events := [],
    face_verification_success_events := [] }

/-- C5 witness: under the default fee rate the event fee and the receipt
fee coincide for the concrete enhanced payment `e5 → e6`. -/
theorem C5_enhanced_fee_witness :
    ∃ config' ptx ev,
      e6.enhanced_config 3 = some config' ∧
      ptx_find e6.payment_txs 9 = some ptx ∧
      config'.face_payment_completed_events.getLast? = some ev ∧
      ev.fee_amount = ptx.fee_amount :=
  C5_enhanced_fee 9 1000000 3 0 "f" e5 e6 cfgE sysW rfl rfl rfl rfl

/-- The enhanced payment under the raised (100 bps) fee rate (C5 cx). -/
def y6 : ChainState :=
  (pay_by_face_enhanced 9 "f" 1000000 3 0 y5).toOption.getD y5

/-- C5 counterexample: in the reachable configuration `y5` the ledger's
`fee_bps` is 100, so a 1000000-octa enhanced payment charges 10000 octas
(receipt) while the façade's event reports the hardcoded
`1000000 * 30 / 10000 = 3000`: the two fee amounts differ. -/
theorem C5_enhanced_fee_cx :
    Reachable y5 ∧
    (y5.facepay_system 1).map (fun sys => sys.fee_bps) = some 100 ∧
    pay_by_face_enhanced 9 "f" 1000000 3 0 y5 = .ok y6 ∧
    ∃ config' ptx ev,
      y6.enhanced_config 3 = some config' ∧
      ptx_find y6.payment_txs 9 = some ptx ∧
      config'.face_payment_completed_events.getLast? = some ev ∧
      ev.fee_amount = 3000 ∧ ptx.fee_amount = 10000 ∧
      ev.fee_amount ≠ ptx.fee_amount :=
  ⟨y5_reachable, rfl, rfl, _, _, _, rfl, rfl, rfl, rfl, rfl, by decide⟩
